import Mathlib

/-!
# Icinga 2: `pki verify` and the enable flags of `IcingaApplication`

A shallow embedding of

* `PKIVerifyCommand::Run` (`lib/cli/pkiverifycommand.cpp`), and
* the enable flags of `IcingaApplication` (getters, setters, serialization) and
  `IcingaApplication::ResolveMacro` (`lib/icinga/icingaapplication.cpp`),

followed by theorems about them.

`Run` talks to the outside world: it loads certificates, writes log lines,
prints certificate reports and calls the TLS helpers.  The embedding makes
every such call visible: `Run` returns the list of calls it made, in program
order, together with the value it returned or the exception it let escape.
-/

namespace icinga

/-! ## Values the source takes from headers -/

/-- Modelled from the spec: `ServiceOK` of the `ServiceState` enumeration
(`icinga/service.hpp`, not part of the sources at hand); the status mapper
sends OK to code 0. -/
def ServiceOK : Int := 0

/-- Modelled from the spec: `ServiceCritical` of the `ServiceState` enumeration
(`icinga/service.hpp`, not part of the sources at hand); the status mapper
sends CRITICAL to code 2. -/
def ServiceCritical : Int := 2

/-- Modelled from the spec: the log severities of `base/logger.hpp` that `Run`
uses, "informational" and "critical". -/
inductive LogSeverity where
  | LogInformation
  | LogCritical
  deriving DecidableEq, Repr

/-- A C++ exception derived from `std::exception`, as thrown by the certificate
loader and by the chain-verification helper. -/
structure std_exception where
  what : String
  deriving DecidableEq, Repr

/-- `String::IsEmpty`: the string has no characters. -/
def IsEmpty (s : String) : Bool := decide (s = "")

/-! ## `PKIVerifyCommand::Run` -/

/-- The part of `boost::program_options::variables_map` that `Run` reads:
for each of the three options, `none` when `vm.count(name)` is zero and
`some v` when the option was given with value `v`. -/
structure variables_map where
  cn : Option String
  cert : Option String
  cacert : Option String
  deriving DecidableEq, Repr

/-- The functions `Run` calls and does not define.  `X509` is the certificate
handle (`std::shared_ptr<X509>`). -/
structure Collaborators (X509 : Type) where
  /-- `GetX509Certificate(path)`: the loaded certificate, or the exception thrown. -/
  GetX509Certificate : String → Except std_exception X509
  /-- `PkiUtility::GetCertificateInformation(cert)`: the rendered report. -/
  GetCertificateInformation : X509 → String
  /-- `GetCertificateCN(cert)`. -/
  GetCertificateCN : X509 → String
  /-- `VerifyCertificate(cacert, cert)`: the verdict, or the exception thrown. -/
  VerifyCertificate : X509 → X509 → Except std_exception Bool
  /-- `IsCa(cacert)`. -/
  IsCa : X509 → Bool
  /-- `DiagnosticInformation(ex, false)`. -/
  DiagnosticInformation : std_exception → String

/-- One observable step of `Run`. -/
inductive Event (X509 : Type) where
  /-- A call `GetX509Certificate(path)`. -/
  | GetX509Certificate (path : String)
  /-- A statement `Log(severity, facility) << ...;` with the message streamed into it. -/
  | Log (severity : LogSeverity) (facility : String) (message : String)
  /-- A statement `std::cout << ...;` with the text written. -/
  | cout (text : String)
  /-- A call `GetCertificateCN(cert)`. -/
  | GetCertificateCN (cert : X509)
  /-- An evaluation of `cn == certCN`. -/
  | CompareCN (cn certCN : String)
  /-- A call `VerifyCertificate(cacert, cert)`. -/
  | VerifyCertificate (cacert cert : X509)
  /-- A call `IsCa(cacert)`. -/
  | IsCa (cacert : X509)
  deriving DecidableEq, Repr

/-- What one call of `Run` did: the steps taken, in order, and either the
`int` returned or the exception that left `Run`. -/
structure Outcome (X509 : Type) where
  trace : List (Event X509)
  result : Except std_exception Int

section Run

variable {X509 : Type}

/-- Lines 61-82, the block "Verify CN in certificate". -/
def VerifyCNBlock (env : Collaborators X509) (cn certFile : String) : Outcome X509 :=
  match env.GetX509Certificate certFile with
  | .error ex => ⟨[.GetX509Certificate certFile], .error ex⟩
  | .ok cert =>
    let certCN := env.GetCertificateCN cert
    let steps : List (Event X509) :=
      [ .GetX509Certificate certFile,
        .Log .LogInformation "cli"
          ("Verifying common name (CN) '" ++ cn ++ " in certificate '" ++ certFile ++ "'."),
        .cout (env.GetCertificateInformation cert ++ "\n"),
        .GetCertificateCN cert,
        .CompareCN cn certCN ]
    if cn = certCN then
      ⟨steps ++ [.Log .LogInformation "cli"
          ("OK: CN '" ++ cn ++ "' matches certificate CN '" ++ certCN ++ "'.")],
        .ok ServiceOK⟩
    else
      ⟨steps ++ [.Log .LogCritical "cli"
          ("CRITICAL: CN '" ++ cn ++ "' does NOT match certificate CN '" ++ certCN ++ "'.")],
        .ok ServiceCritical⟩

/-- Lines 85-123, the block "Verify certificate". -/
def VerifyCertificateBlock (env : Collaborators X509) (certFile caCertFile : String) :
    Outcome X509 :=
  match env.GetX509Certificate certFile with
  | .error ex => ⟨[.GetX509Certificate certFile], .error ex⟩
  | .ok cert =>
    match env.GetX509Certificate caCertFile with
    | .error ex => ⟨[.GetX509Certificate certFile, .GetX509Certificate caCertFile], .error ex⟩
    | .ok cacert =>
      let certCN := env.GetCertificateCN cert
      let steps : List (Event X509) :=
        [ .GetX509Certificate certFile,
          .GetX509Certificate caCertFile,
          .Log .LogInformation "cli" ("Verifying certificate '" ++ certFile ++ "'"),
          .cout (env.GetCertificateInformation cert ++ "\n"),
          .Log .LogInformation "cli" (" with CA certificate '" ++ caCertFile ++ "'."),
          .cout (env.GetCertificateInformation cacert ++ "\n"),
          .GetCertificateCN cert,
          .VerifyCertificate cacert cert ]
      match env.VerifyCertificate cacert cert with
      | .error ex =>
        ⟨steps ++ [.Log .LogCritical "cli"
            ("CRITICAL: Certificate with CN '" ++ certCN ++ "' is NOT signed by CA: "
              ++ env.DiagnosticInformation ex)],
          .ok ServiceCritical⟩
      | .ok signedByCA =>
        if signedByCA then
          ⟨steps ++ [.Log .LogInformation "cli"
              ("OK: Certificate with CN '" ++ certCN ++ "' is signed by CA.")],
            .ok ServiceOK⟩
        else
          ⟨steps ++ [.Log .LogCritical "cli"
              ("CRITICAL: Certificate with CN '" ++ certCN ++ "' is NOT signed by CA.")],
            .ok ServiceCritical⟩

/-- Lines 127-146, the block "Standalone CA checks". -/
def StandaloneCABlock (env : Collaborators X509) (caCertFile : String) : Outcome X509 :=
  match env.GetX509Certificate caCertFile with
  | .error ex => ⟨[.GetX509Certificate caCertFile], .error ex⟩
  | .ok cacert =>
    let steps : List (Event X509) :=
      [ .GetX509Certificate caCertFile,
        .Log .LogInformation "cli"
          ("Checking whether certificate '" ++ caCertFile ++ "' is a valid CA certificate."),
        .cout (env.GetCertificateInformation cacert ++ "\n"),
        .IsCa cacert ]
    if env.IsCa cacert then
      ⟨steps ++ [.Log .LogInformation "cli"
          ("OK: CA certificate file '" ++ caCertFile ++ "' was verified successfully.\n")],
        .ok ServiceOK⟩
    else
      ⟨steps ++ [.Log .LogCritical "cli"
          ("CRITICAL: The file '" ++ caCertFile
            ++ "' does not seem to be a CA certificate file.\n")],
        .ok ServiceCritical⟩

/-- Lines 149-158, the block "Print certificate". -/
def PrintCertificateBlock (env : Collaborators X509) (certFile : String) : Outcome X509 :=
  match env.GetX509Certificate certFile with
  | .error ex => ⟨[.GetX509Certificate certFile], .error ex⟩
  | .ok cert =>
    ⟨[ .GetX509Certificate certFile,
       .Log .LogInformation "cli" ("Printing certificate '" ++ certFile ++ "'"),
       .cout (env.GetCertificateInformation cert ++ "\n") ],
      .ok ServiceOK⟩

/-- Lines 49-58 for one option: a default-constructed (empty) `String`,
overwritten by the option's value when `vm.count(name)` is non-zero. -/
def optionValue (o : Option String) : String :=
  match o with
  | some v => v
  | none => ""

/-- `PKIVerifyCommand::Run(vm, ap)`: the three strings are read from `vm`
(lines 49-58); then the four guarded blocks are tried in source order, each of
them ending in a `return`; the last line returns `ServiceOK`. -/
def Run (env : Collaborators X509) (vm : variables_map) (_ap : List String) : Outcome X509 :=
  let cn : String := optionValue vm.cn
  let certFile : String := optionValue vm.cert
  let caCertFile : String := optionValue vm.cacert
  if !IsEmpty cn && !IsEmpty certFile then
    VerifyCNBlock env cn certFile
  else if !IsEmpty certFile && !IsEmpty caCertFile then
    VerifyCertificateBlock env certFile caCertFile
  else if IsEmpty certFile && !IsEmpty caCertFile then
    StandaloneCABlock env caCertFile
  else if !IsEmpty certFile then
    PrintCertificateBlock env certFile
  else
    ⟨[], .ok ServiceOK⟩

/-! ### Reading a trace -/

/-- The texts written to standard output, in order: one per certificate report. -/
def reports (tr : List (Event X509)) : List String :=
  tr.filterMap fun e =>
    match e with
    | .cout text => some text
    | _ => none

/-- The paths handed to `GetX509Certificate`, in order. -/
def loadedPaths (tr : List (Event X509)) : List String :=
  tr.filterMap fun e =>
    match e with
    | .GetX509Certificate path => some path
    | _ => none

/-- The log lines written, in order, as severity and message. -/
def logLines (tr : List (Event X509)) : List (LogSeverity × String) :=
  tr.filterMap fun e =>
    match e with
    | .Log severity _ message => some (severity, message)
    | _ => none

/-- The messages of the critical-severity log lines written, in order. -/
def criticalMessages (tr : List (Event X509)) : List String :=
  tr.filterMap fun e =>
    match e with
    | .Log .LogCritical _ message => some message
    | _ => none

/-- The step is a call of the certificate loader. -/
def Event.isLoad : Event X509 → Bool
  | .GetX509Certificate _ => true
  | _ => false

/-- The step reads or compares the CN (`GetCertificateCN`, `cn == certCN`). -/
def Event.isCNCheck : Event X509 → Bool
  | .GetCertificateCN _ => true
  | .CompareCN _ _ => true
  | _ => false

/-- The step is a call of `IsCa`. -/
def Event.isCACheck : Event X509 → Bool
  | .IsCa _ => true
  | _ => false

/-- The step is a call of `VerifyCertificate`. -/
def Event.isChainVerification : Event X509 → Bool
  | .VerifyCertificate _ _ => true
  | _ => false

/-! ### The mode a request selects -/

/-- The five ways through `Run`, under the names the specification gives them. -/
inductive VerificationMode where
  | CNMatch
  | ChainVerify
  | CAIdentity
  | InspectOnly
  | NoOp
  deriving DecidableEq, Repr

/-- The guards of lines 61, 85, 127 and 149, in source order, each naming the
block it protects. -/
def selectedMode (vm : variables_map) : VerificationMode :=
  let cn : String := optionValue vm.cn
  let certFile : String := optionValue vm.cert
  let caCertFile : String := optionValue vm.cacert
  if !IsEmpty cn && !IsEmpty certFile then .CNMatch
  else if !IsEmpty certFile && !IsEmpty caCertFile then .ChainVerify
  else if IsEmpty certFile && !IsEmpty caCertFile then .CAIdentity
  else if !IsEmpty certFile then .InspectOnly
  else .NoOp

/-- The body of `Run` that belongs to a mode. -/
def runMode (env : Collaborators X509) (vm : variables_map) : VerificationMode → Outcome X509
  | .CNMatch => VerifyCNBlock env (optionValue vm.cn) (optionValue vm.cert)
  | .ChainVerify => VerifyCertificateBlock env (optionValue vm.cert) (optionValue vm.cacert)
  | .CAIdentity => StandaloneCABlock env (optionValue vm.cacert)
  | .InspectOnly => PrintCertificateBlock env (optionValue vm.cert)
  | .NoOp => ⟨[], .ok ServiceOK⟩

end Run

/-- The text `message` contains the text `part` as a run of consecutive characters. -/
def Mentions (message part : String) : Prop :=
  List.IsInfix part.data message.data

instance (message part : String) : Decidable (Mentions message part) :=
  inferInstanceAs (Decidable (List.IsInfix part.data message.data))

/-! ### A small world of certificates

Three certificate files: a leaf `leaf.pem` (CN `host.example`) signed by the
root `root.pem` (CN `Example Root CA`, a CA), and `stray.pem`
(CN `stray.example`), which the root did not sign.  Any other path cannot be
loaded.  The chain verification fails with an exception when the alleged
authority is not a CA. -/

/-- The certificate loader of the small world; the handle of a certificate is a number. -/
def demoGetX509Certificate (path : String) : Except std_exception Nat :=
  if path = "leaf.pem" then .ok 1
  else if path = "root.pem" then .ok 2
  else if path = "stray.pem" then .ok 3
  else .error ⟨"Could not open certificate file"⟩

/-- The common names of the small world. -/
def demoGetCertificateCN (cert : Nat) : String :=
  if cert = 1 then "host.example"
  else if cert = 2 then "Example Root CA"
  else "stray.example"

/-- The chain verification of the small world. -/
def demoVerifyCertificate (cacert cert : Nat) : Except std_exception Bool :=
  if cacert = 2 then .ok (decide (cert = 1 ∨ cert = 2))
  else .error ⟨"unable to get issuer certificate"⟩

/-- The collaborators of the small world. -/
def demoCollaborators : Collaborators Nat where
  GetX509Certificate := demoGetX509Certificate
  GetCertificateInformation := fun cert => " Subject:     CN = " ++ demoGetCertificateCN cert
  GetCertificateCN := demoGetCertificateCN
  VerifyCertificate := demoVerifyCertificate
  IsCa := fun cacert => decide (cacert = 2)
  DiagnosticInformation := fun ex => "Error: " ++ ex.what

/-! ## The enable flags of `IcingaApplication` -/

/-- Modelled from the spec: the `Value` held by an enable field (declared in
`base/value.h` and `icinga/icingaapplication.h`, not part of the sources at
hand), with the three states "unset/true/false": `Empty`, or a boolean. -/
inductive Value where
  | Empty
  | Boolean (b : Bool)
  deriving DecidableEq, Repr

/-- `Value::IsEmpty`. -/
def Value.IsEmpty : Value → Bool
  | .Empty => true
  | .Boolean _ => false

/-- The conversion of a `Value` to `bool` done by `return m_...;`.  The getters
convert a value only after `IsEmpty` has said it is not `Empty`. -/
def Value.toBool : Value → Bool
  | .Empty => false
  | .Boolean b => b

/-- The ten fields of `IcingaApplication` that the enable flags use. -/
structure IcingaApplication where
  m_EnableNotifications : Value
  m_EnableEventHandlers : Value
  m_EnableFlapping : Value
  m_EnableChecks : Value
  m_EnablePerfdata : Value
  m_OverrideEnableNotifications : Value
  m_OverrideEnableEventHandlers : Value
  m_OverrideEnableFlapping : Value
  m_OverrideEnableChecks : Value
  m_OverrideEnablePerfdata : Value
  deriving DecidableEq, Repr

namespace IcingaApplication

/-- The constructor (lines 42-49): the five configured values are `true`, the
overrides are default-constructed, that is `Empty`. -/
def new : IcingaApplication where
  m_EnableNotifications := .Boolean true
  m_EnableEventHandlers := .Boolean true
  m_EnableFlapping := .Boolean true
  m_EnableChecks := .Boolean true
  m_EnablePerfdata := .Boolean true
  m_OverrideEnableNotifications := .Empty
  m_OverrideEnableEventHandlers := .Empty
  m_OverrideEnableFlapping := .Empty
  m_OverrideEnableChecks := .Empty
  m_OverrideEnablePerfdata := .Empty

/-- `GetEnableNotifications` (lines 140-148). -/
def GetEnableNotifications (self : IcingaApplication) : Bool :=
  if !self.m_OverrideEnableNotifications.IsEmpty then
    self.m_OverrideEnableNotifications.toBool
  else if !self.m_EnableNotifications.IsEmpty then
    self.m_EnableNotifications.toBool
  else
    true

/-- `SetEnableNotifications` (lines 150-153). -/
def SetEnableNotifications (self : IcingaApplication) (enabled : Bool) : IcingaApplication :=
  { self with m_OverrideEnableNotifications := .Boolean enabled }

/-- `ClearEnableNotifications` (lines 155-158). -/
def ClearEnableNotifications (self : IcingaApplication) : IcingaApplication :=
  { self with m_OverrideEnableNotifications := .Empty }

/-- `GetEnableEventHandlers` (lines 160-168). -/
def GetEnableEventHandlers (self : IcingaApplication) : Bool :=
  if !self.m_OverrideEnableEventHandlers.IsEmpty then
    self.m_OverrideEnableEventHandlers.toBool
  else if !self.m_EnableEventHandlers.IsEmpty then
    self.m_EnableEventHandlers.toBool
  else
    true

/-- `SetEnableEventHandlers` (lines 170-173). -/
def SetEnableEventHandlers (self : IcingaApplication) (enabled : Bool) : IcingaApplication :=
  { self with m_OverrideEnableEventHandlers := .Boolean enabled }

/-- `ClearEnableEventHandlers` (lines 175-178). -/
def ClearEnableEventHandlers (self : IcingaApplication) : IcingaApplication :=
  { self with m_OverrideEnableEventHandlers := .Empty }

/-- `GetEnableFlapping` (lines 180-188). -/
def GetEnableFlapping (self : IcingaApplication) : Bool :=
  if !self.m_OverrideEnableFlapping.IsEmpty then
    self.m_OverrideEnableFlapping.toBool
  else if !self.m_EnableFlapping.IsEmpty then
    self.m_EnableFlapping.toBool
  else
    true

/-- `SetEnableFlapping` (lines 190-193). -/
def SetEnableFlapping (self : IcingaApplication) (enabled : Bool) : IcingaApplication :=
  { self with m_OverrideEnableFlapping := .Boolean enabled }

/-- `ClearEnableFlapping` (lines 195-198). -/
def ClearEnableFlapping (self : IcingaApplication) : IcingaApplication :=
  { self with m_OverrideEnableFlapping := .Empty }

/-- `GetEnableChecks` (lines 200-208). -/
def GetEnableChecks (self : IcingaApplication) : Bool :=
  if !self.m_OverrideEnableChecks.IsEmpty then
    self.m_OverrideEnableChecks.toBool
  else if !self.m_EnableChecks.IsEmpty then
    self.m_EnableChecks.toBool
  else
    true

/-- `SetEnableChecks` (lines 210-213). -/
def SetEnableChecks (self : IcingaApplication) (enabled : Bool) : IcingaApplication :=
  { self with m_OverrideEnableChecks := .Boolean enabled }

/-- `ClearEnableChecks` (lines 215-218). -/
def ClearEnableChecks (self : IcingaApplication) : IcingaApplication :=
  { self with m_OverrideEnableChecks := .Empty }

/-- `GetEnablePerfdata` (lines 220-228). -/
def GetEnablePerfdata (self : IcingaApplication) : Bool :=
  if !self.m_OverrideEnablePerfdata.IsEmpty then
    self.m_OverrideEnablePerfdata.toBool
  else if !self.m_EnablePerfdata.IsEmpty then
    self.m_EnablePerfdata.toBool
  else
    true

/-- `SetEnablePerfdata` (lines 230-233). -/
def SetEnablePerfdata (self : IcingaApplication) (enabled : Bool) : IcingaApplication :=
  { self with m_OverrideEnablePerfdata := .Boolean enabled }

/-- `ClearEnablePerfdata` (lines 235-238). -/
def ClearEnablePerfdata (self : IcingaApplication) : IcingaApplication :=
  { self with m_OverrideEnablePerfdata := .Empty }

end IcingaApplication

/-- The resolution order in words: an override that is set wins; otherwise a
configured value that is set; otherwise `true`. -/
def resolveEnable (override configured : Value) : Bool :=
  match override, configured with
  | .Boolean o, _ => o
  | .Empty, .Boolean c => c
  | .Empty, .Empty => true

/-! ### The five flags, by name -/

/-- The five enable flags of `IcingaApplication`. -/
inductive Flag where
  | Notifications
  | EventHandlers
  | Flapping
  | Checks
  | Perfdata
  deriving DecidableEq, Repr

namespace IcingaApplication

/-- The field `m_Enable...` of a flag. -/
def configured (self : IcingaApplication) : Flag → Value
  | .Notifications => self.m_EnableNotifications
  | .EventHandlers => self.m_EnableEventHandlers
  | .Flapping => self.m_EnableFlapping
  | .Checks => self.m_EnableChecks
  | .Perfdata => self.m_EnablePerfdata

/-- The field `m_OverrideEnable...` of a flag. -/
def override (self : IcingaApplication) : Flag → Value
  | .Notifications => self.m_OverrideEnableNotifications
  | .EventHandlers => self.m_OverrideEnableEventHandlers
  | .Flapping => self.m_OverrideEnableFlapping
  | .Checks => self.m_OverrideEnableChecks
  | .Perfdata => self.m_OverrideEnablePerfdata

/-- The getter `GetEnable...` of a flag. -/
def GetEnable (self : IcingaApplication) : Flag → Bool
  | .Notifications => self.GetEnableNotifications
  | .EventHandlers => self.GetEnableEventHandlers
  | .Flapping => self.GetEnableFlapping
  | .Checks => self.GetEnableChecks
  | .Perfdata => self.GetEnablePerfdata

/-- The setter `SetEnable...` of a flag. -/
def SetEnable (self : IcingaApplication) (flag : Flag) (enabled : Bool) : IcingaApplication :=
  match flag with
  | .Notifications => self.SetEnableNotifications enabled
  | .EventHandlers => self.SetEnableEventHandlers enabled
  | .Flapping => self.SetEnableFlapping enabled
  | .Checks => self.SetEnableChecks enabled
  | .Perfdata => self.SetEnablePerfdata enabled

/-- The method `ClearEnable...` of a flag. -/
def ClearEnable (self : IcingaApplication) (flag : Flag) : IcingaApplication :=
  match flag with
  | .Notifications => self.ClearEnableNotifications
  | .EventHandlers => self.ClearEnableEventHandlers
  | .Flapping => self.ClearEnableFlapping
  | .Checks => self.ClearEnableChecks
  | .Perfdata => self.ClearEnablePerfdata

end IcingaApplication

/-- An application whose configured values are a mix of set and unset, with
two overrides in place. -/
def demoApplication : IcingaApplication where
  m_EnableNotifications := .Boolean false
  m_EnableEventHandlers := .Empty
  m_EnableFlapping := .Boolean true
  m_EnableChecks := .Boolean false
  m_EnablePerfdata := .Empty
  m_OverrideEnableNotifications := .Empty
  m_OverrideEnableEventHandlers := .Boolean false
  m_OverrideEnableFlapping := .Empty
  m_OverrideEnableChecks := .Boolean true
  m_OverrideEnablePerfdata := .Empty

/-! ## Serialization of the enable flags -/

/-- Modelled from the spec: the `Dictionary` class (`base/dictionary.h`, not
part of the sources at hand), the bag of the state-persistence machinery, as a
map from keys to values. -/
structure Dictionary where
  lookup : String → Option Value

/-- `Dictionary::Contains(key)`. -/
def Dictionary.Contains (self : Dictionary) (key : String) : Bool :=
  (self.lookup key).isSome

/-- `Dictionary::Get(key)`: the value under the key, `Empty` when there is none. -/
def Dictionary.Get (self : Dictionary) (key : String) : Value :=
  match self.lookup key with
  | some value => value
  | none => .Empty

/-- `Dictionary::Set(key, value)`: afterwards `key` holds `value`, the other
keys are as before. -/
def Dictionary.Set (self : Dictionary) (key : String) (value : Value) : Dictionary :=
  ⟨fun k => if k = key then some value else self.lookup k⟩

/-- What the two serialization methods take from `DynamicObject`
(`base/dynamicobject.h`, not part of the sources at hand): the two attribute
bits and the base-class `InternalSerialize`, which may write anything into the
bag.  The base-class `InternalDeserialize` reads the bag into base-class
members, none of which is an enable field, and is left out. -/
structure DynamicObject where
  Attribute_Config : Int
  Attribute_State : Int
  InternalSerialize : Dictionary → Int → Dictionary

namespace IcingaApplication

/-- `InternalSerialize(bag, attributeTypes)` (lines 240-259); the bag after the call. -/
def InternalSerialize (self : IcingaApplication) (base : DynamicObject) (bag : Dictionary)
    (attributeTypes : Int) : Dictionary :=
  let bag₁ := base.InternalSerialize bag attributeTypes
  let bag₂ :=
    if Int.land attributeTypes base.Attribute_Config ≠ 0 then
      ((((bag₁.Set "enable_notifications" self.m_EnableNotifications).Set
        "enable_event_handlers" self.m_EnableEventHandlers).Set
        "enable_flapping" self.m_EnableFlapping).Set
        "enable_checks" self.m_EnableChecks).Set
        "enable_perfdata" self.m_EnablePerfdata
    else bag₁
  if Int.land attributeTypes base.Attribute_State ≠ 0 then
    ((((bag₂.Set "override_enable_notifications" self.m_OverrideEnableNotifications).Set
      "override_enable_event_handlers" self.m_OverrideEnableEventHandlers).Set
      "override_enable_flapping" self.m_OverrideEnableFlapping).Set
      "override_enable_checks" self.m_OverrideEnableChecks).Set
      "override_enable_perfdata" self.m_OverrideEnablePerfdata
  else bag₂

/-- `InternalDeserialize(bag, attributeTypes)` (lines 261-280); the object after the call. -/
def InternalDeserialize (self : IcingaApplication) (base : DynamicObject) (bag : Dictionary)
    (attributeTypes : Int) : IcingaApplication :=
  let self₁ :=
    if Int.land attributeTypes base.Attribute_Config ≠ 0 then
      { self with
        m_EnableNotifications := bag.Get "enable_notifications"
        m_EnableEventHandlers := bag.Get "enable_event_handlers"
        m_EnableFlapping := bag.Get "enable_flapping"
        m_EnableChecks := bag.Get "enable_checks"
        m_EnablePerfdata := bag.Get "enable_perfdata" }
    else self
  if Int.land attributeTypes base.Attribute_State ≠ 0 then
    { self₁ with
      m_OverrideEnableNotifications := bag.Get "override_enable_notifications"
      m_OverrideEnableEventHandlers := bag.Get "override_enable_event_handlers"
      m_OverrideEnableFlapping := bag.Get "override_enable_flapping"
      m_OverrideEnableChecks := bag.Get "override_enable_checks"
      m_OverrideEnablePerfdata := bag.Get "override_enable_perfdata" }
  else self₁

end IcingaApplication

/-- A base class with the bits 1 (state) and 2 (config) whose own
serialization records a type name. -/
def demoDynamicObject : DynamicObject where
  Attribute_Config := 2
  Attribute_State := 1
  InternalSerialize := fun bag _ => bag.Set "__type" (.Boolean true)

/-- An empty bag. -/
def emptyDictionary : Dictionary := ⟨fun _ => none⟩

/-! ## `IcingaApplication::ResolveMacro` -/

/-- The functions `ResolveMacro` calls and does not define.  `Time` is the
clock reading of `Utility::GetTime()`. -/
structure MacroCollaborators (Time : Type) where
  /-- `Utility::GetTime()`. -/
  GetTime : Time
  /-- `Convert::ToString((long)now)`. -/
  ToStringLong : Time → String
  /-- `Utility::FormatDateTime(format, now)`. -/
  FormatDateTime : String → Time → String
  /-- `GetMacros()`, that is `ScriptVariable::Get("IcingaMacros")`: `none` is
  the null pointer. -/
  GetMacros : Option Dictionary
  /-- The conversion of a `Value` to `String` in `*result = macros->Get(macro)`. -/
  ValueToString : Value → String

/-- `ResolveMacro(macro, cr, result)` (lines 109-138): the `bool` returned and
the string `*result` holds afterwards, given the string it held before. -/
def IcingaApplication.ResolveMacro {Time : Type} (env : MacroCollaborators Time)
    (macroName : String) (_cr : Option Dictionary) (result : String) : Bool × String :=
  let now := env.GetTime
  if macroName = "TIMET" then
    (true, env.ToStringLong now)
  else if macroName = "LONGDATETIME" then
    (true, env.FormatDateTime "%Y-%m-%d %H:%M:%S %z" now)
  else if macroName = "SHORTDATETIME" then
    (true, env.FormatDateTime "%Y-%m-%d %H:%M:%S" now)
  else if macroName = "DATE" then
    (true, env.FormatDateTime "%Y-%m-%d" now)
  else if macroName = "TIME" then
    (true, env.FormatDateTime "%H:%M:%S %z" now)
  else
    match env.GetMacros with
    | some macros =>
      if macros.Contains macroName then
        (true, env.ValueToString (macros.Get macroName))
      else
        (false, result)
    | none => (false, result)

/-- The five names `ResolveMacro` answers itself. -/
def builtinMacroNames : List String :=
  ["TIMET", "LONGDATETIME", "SHORTDATETIME", "DATE", "TIME"]

/-- A clock that reads 1700000000 and user macros that define `TIMET` and
`maintenance`. -/
def demoMacroCollaborators : MacroCollaborators Nat where
  GetTime := 1700000000
  ToStringLong := fun now => toString now
  FormatDateTime := fun format now => format ++ " at " ++ toString now
  GetMacros := some ((emptyDictionary.Set "TIMET" (.Boolean false)).Set "maintenance"
    (.Boolean true))
  ValueToString := fun value =>
    match value with
    | .Empty => ""
    | .Boolean true => "1"
    | .Boolean false => "0"

/-! ## Theorems -/


section RunTheorems

variable {X509 : Type}

@[simp] theorem IsEmpty_eq_true_iff (s : String) : IsEmpty s = true ↔ s = "" := by
  simp [IsEmpty]

@[simp] theorem IsEmpty_eq_false_iff (s : String) : IsEmpty s = false ↔ s ≠ "" := by
  simp [IsEmpty]

@[simp] theorem optionValue_some (v : String) : optionValue (some v) = v := rfl

@[simp] theorem optionValue_none : optionValue none = "" := rfl

theorem ServiceOK_ne_ServiceCritical : ServiceOK ≠ ServiceCritical := by decide

/-- `Run` executes the block of the mode its guards select. -/
theorem Run_eq_runMode (env : Collaborators X509) (vm : variables_map) (ap : List String) :
    Run env vm ap = runMode env vm (selectedMode vm) := by
  unfold Run selectedMode
  simp only []
  split_ifs <;> rfl

/-- With an expected CN and a certificate path, `Run` is the CN block. -/
theorem Run_of_cn_cert (env : Collaborators X509) (vm : variables_map) (ap : List String)
    (hcn : optionValue vm.cn ≠ "") (hcert : optionValue vm.cert ≠ "") :
    Run env vm ap = VerifyCNBlock env (optionValue vm.cn) (optionValue vm.cert) := by
  simp [Run, hcn, hcert]

/-- Without an expected CN, with certificate path and CA path, `Run` is the
chain-verification block. -/
theorem Run_of_cert_cacert (env : Collaborators X509) (vm : variables_map) (ap : List String)
    (hcn : optionValue vm.cn = "") (hcert : optionValue vm.cert ≠ "")
    (hca : optionValue vm.cacert ≠ "") :
    Run env vm ap =
      VerifyCertificateBlock env (optionValue vm.cert) (optionValue vm.cacert) := by
  simp [Run, hcn, hcert, hca]

/-- Without a certificate path, with a CA path, `Run` is the standalone CA block. -/
theorem Run_of_cacert (env : Collaborators X509) (vm : variables_map) (ap : List String)
    (hcert : optionValue vm.cert = "") (hca : optionValue vm.cacert ≠ "") :
    Run env vm ap = StandaloneCABlock env (optionValue vm.cacert) := by
  simp [Run, hcert, hca]

/-- With a certificate path alone, `Run` is the print block. -/
theorem Run_of_cert (env : Collaborators X509) (vm : variables_map) (ap : List String)
    (hcn : optionValue vm.cn = "") (hcert : optionValue vm.cert ≠ "")
    (hca : optionValue vm.cacert = "") :
    Run env vm ap = PrintCertificateBlock env (optionValue vm.cert) := by
  simp [Run, hcn, hcert, hca]

/-- Without certificate path and CA path, `Run` does nothing and returns `ServiceOK`. -/
theorem Run_of_nothing (env : Collaborators X509) (vm : variables_map) (ap : List String)
    (hcert : optionValue vm.cert = "") (hca : optionValue vm.cacert = "") :
    Run env vm ap = ⟨[], .ok ServiceOK⟩ := by
  simp [Run, hcert, hca]

/-- The CN block when the certificate loads. -/
theorem VerifyCNBlock_result (env : Collaborators X509) (cn certFile : String) (cert : X509)
    (hload : env.GetX509Certificate certFile = .ok cert) :
    (VerifyCNBlock env cn certFile).result =
      .ok (if cn = env.GetCertificateCN cert then ServiceOK else ServiceCritical) := by
  unfold VerifyCNBlock
  rw [hload]
  simp only []
  split_ifs <;> rfl

/-- C1. With an expected CN and a certificate path, both non-empty, and a
certificate that loads, `Run` returns `ServiceOK` exactly when the expected CN
is the same string as the certificate's CN, and `ServiceCritical` exactly when
it is a different string; the CA option may hold anything. -/
theorem Run_cn_match_iff (env : Collaborators X509) (vm : variables_map) (ap : List String)
    (cn certFile : String) (cert : X509)
    (hcn : vm.cn = some cn) (hcnSet : cn ≠ "")
    (hcert : vm.cert = some certFile) (hcertSet : certFile ≠ "")
    (hload : env.GetX509Certificate certFile = .ok cert) :
    ((Run env vm ap).result = .ok ServiceOK ↔ cn = env.GetCertificateCN cert) ∧
    ((Run env vm ap).result = .ok ServiceCritical ↔ cn ≠ env.GetCertificateCN cert) := by
  have hrun : Run env vm ap = VerifyCNBlock env cn certFile := by
    have h := Run_of_cn_cert env vm ap (by simpa [hcn] using hcnSet)
      (by simpa [hcert] using hcertSet)
    simpa [hcn, hcert] using h
  rw [hrun, VerifyCNBlock_result env cn certFile cert hload]
  by_cases h : cn = env.GetCertificateCN cert
  · simp [h, ServiceCritical, ServiceOK]
  · simp [h, ServiceCritical, ServiceOK]

/-- Witness for C1, which also shows that the comparison is case-sensitive and
that a CA path that cannot be loaded changes nothing: `HOST.EXAMPLE` against a
certificate with CN `host.example` is `ServiceCritical`. -/
theorem Run_cn_match_iff_witness :
    demoCollaborators.GetX509Certificate "leaf.pem" = .ok 1 ∧
    demoCollaborators.GetX509Certificate "missing.pem" = .error ⟨"Could not open certificate file"⟩ ∧
    (Run demoCollaborators ⟨some "HOST.EXAMPLE", some "leaf.pem", some "missing.pem"⟩ []).result
      = .ok ServiceCritical :=
  ⟨rfl, rfl,
    (Run_cn_match_iff demoCollaborators ⟨some "HOST.EXAMPLE", some "leaf.pem", some "missing.pem"⟩
      [] "HOST.EXAMPLE" "leaf.pem" 1 rfl (by decide) rfl (by decide) rfl).2.mpr (by decide)⟩

/-- The chain-verification block when both certificates load. -/
theorem VerifyCertificateBlock_result (env : Collaborators X509) (certFile caCertFile : String)
    (cert cacert : X509)
    (hload : env.GetX509Certificate certFile = .ok cert)
    (hloadCA : env.GetX509Certificate caCertFile = .ok cacert) :
    (VerifyCertificateBlock env certFile caCertFile).result =
      .ok (match env.VerifyCertificate cacert cert with
        | .ok true => ServiceOK
        | _ => ServiceCritical) := by
  unfold VerifyCertificateBlock
  rw [hload]
  simp only []
  rw [hloadCA]
  simp only []
  cases hv : env.VerifyCertificate cacert cert with
  | error ex => simp
  | ok signedByCA => cases signedByCA <;> simp

/-- C2. With a certificate path and a CA path, both non-empty, no expected CN,
and two certificates that load, `Run` returns `ServiceOK` exactly when
`VerifyCertificate(cacert, cert)` returns true; when it returns false and when
it throws, `Run` returns `ServiceCritical`; no exception leaves `Run`. -/
theorem Run_chain_verify_iff (env : Collaborators X509) (vm : variables_map)
    (ap : List String) (certFile caCertFile : String) (cert cacert : X509)
    (hcn : optionValue vm.cn = "")
    (hcert : vm.cert = some certFile) (hcertSet : certFile ≠ "")
    (hca : vm.cacert = some caCertFile) (hcaSet : caCertFile ≠ "")
    (hload : env.GetX509Certificate certFile = .ok cert)
    (hloadCA : env.GetX509Certificate caCertFile = .ok cacert) :
    ((Run env vm ap).result = .ok ServiceOK ↔ env.VerifyCertificate cacert cert = .ok true) ∧
    (env.VerifyCertificate cacert cert = .ok false →
      (Run env vm ap).result = .ok ServiceCritical) ∧
    (∀ ex, env.VerifyCertificate cacert cert = .error ex →
      (Run env vm ap).result = .ok ServiceCritical) ∧
    (∀ ex, (Run env vm ap).result ≠ .error ex) := by
  have hrun : Run env vm ap = VerifyCertificateBlock env certFile caCertFile := by
    have h := Run_of_cert_cacert env vm ap hcn (by simpa [hcert] using hcertSet)
      (by simpa [hca] using hcaSet)
    simpa [hcert, hca] using h
  rw [hrun, VerifyCertificateBlock_result env certFile caCertFile cert cacert hload hloadCA]
  refine ⟨?_, ?_, ?_, ?_⟩
  · cases hv : env.VerifyCertificate cacert cert with
    | error ex => simp [ServiceCritical, ServiceOK]
    | ok signedByCA => cases signedByCA <;> simp [ServiceCritical, ServiceOK]
  · intro h
    simp [h]
  · intro ex h
    simp [h]
  · intro ex h
    simp at h

/-- Witness for C2: in the small world the chain verification throws when the
leaf is offered as authority, and `Run` answers `ServiceCritical`. -/
theorem Run_chain_verify_iff_witness :
    demoCollaborators.VerifyCertificate 1 2 = .error ⟨"unable to get issuer certificate"⟩ ∧
    (Run demoCollaborators ⟨none, some "root.pem", some "leaf.pem"⟩ []).result
      = .ok ServiceCritical :=
  ⟨rfl,
    (Run_chain_verify_iff demoCollaborators ⟨none, some "root.pem", some "leaf.pem"⟩ []
      "root.pem" "leaf.pem" 2 1 rfl rfl (by decide) rfl (by decide) rfl rfl).2.2.1
      ⟨"unable to get issuer certificate"⟩ rfl⟩

/-- The trace of the CN block when the certificate loads. -/
theorem VerifyCNBlock_trace (env : Collaborators X509) (cn certFile : String) (cert : X509)
    (hload : env.GetX509Certificate certFile = .ok cert) :
    ∃ (severity : LogSeverity) (message : String),
      (VerifyCNBlock env cn certFile).trace =
        [ .GetX509Certificate certFile,
          .Log .LogInformation "cli"
            ("Verifying common name (CN) '" ++ cn ++ " in certificate '" ++ certFile ++ "'."),
          .cout (env.GetCertificateInformation cert ++ "\n"),
          .GetCertificateCN cert,
          .CompareCN cn (env.GetCertificateCN cert),
          .Log severity "cli" message ] := by
  unfold VerifyCNBlock
  rw [hload]
  simp only []
  split_ifs
  · exact ⟨_, _, rfl⟩
  · exact ⟨_, _, rfl⟩

/-- The CN block when the certificate does not load. -/
theorem VerifyCNBlock_of_load_error (env : Collaborators X509) (cn certFile : String)
    (ex : std_exception) (hload : env.GetX509Certificate certFile = .error ex) :
    VerifyCNBlock env cn certFile = ⟨[.GetX509Certificate certFile], .error ex⟩ := by
  unfold VerifyCNBlock
  rw [hload]

/-- C3, counterexample. A request that gives all three options emits no
certificate report at all when the certificate of `--cert` cannot be loaded. -/
theorem Run_all_three_without_report :
    (Run demoCollaborators ⟨some "host.example", some "missing.pem", some "root.pem"⟩ []).result
      = .error ⟨"Could not open certificate file"⟩ ∧
    reports (Run demoCollaborators
      ⟨some "host.example", some "missing.pem", some "root.pem"⟩ []).trace = [] ∧
    (reports (Run demoCollaborators
      ⟨some "host.example", some "missing.pem", some "root.pem"⟩ []).trace).length ≠ 1 := by
  refine ⟨rfl, rfl, ?_⟩
  decide

/-- C3, amended. When all three options are given, expected CN and certificate
path non-empty, only the CN block runs: `Run` is that block, which has no CA
path among its arguments; the certificate loader is called once, on the
certificate path; `VerifyCertificate` is not called; replacing the CA option
by anything else, or removing it, leaves steps and result unchanged; exactly
one report is emitted when the certificate loads, and none when it does not. -/
theorem Run_all_three_is_cn_match (env : Collaborators X509) (vm : variables_map)
    (ap : List String) (cn certFile caCertFile : String)
    (hcn : vm.cn = some cn) (hcnSet : cn ≠ "")
    (hcert : vm.cert = some certFile) (hcertSet : certFile ≠ "")
    (hca : vm.cacert = some caCertFile) :
    Run env vm ap = VerifyCNBlock env cn certFile ∧
    loadedPaths (Run env vm ap).trace = [certFile] ∧
    (∀ e ∈ (Run env vm ap).trace, e.isChainVerification = false) ∧
    (∀ other : Option String,
      Run env ⟨some cn, some certFile, other⟩ ap = Run env vm ap) ∧
    (∀ cert, env.GetX509Certificate certFile = .ok cert →
      reports (Run env vm ap).trace = [env.GetCertificateInformation cert ++ "\n"]) ∧
    (∀ ex, env.GetX509Certificate certFile = .error ex →
      reports (Run env vm ap).trace = []) := by
  have hrun : ∀ other : Option String,
      Run env ⟨some cn, some certFile, other⟩ ap = VerifyCNBlock env cn certFile := by
    intro other
    exact Run_of_cn_cert env ⟨some cn, some certFile, other⟩ ap hcnSet hcertSet
  have hvm : vm = ⟨some cn, some certFile, some caCertFile⟩ := by
    cases vm
    simp_all
  have hself : Run env vm ap = VerifyCNBlock env cn certFile := by
    rw [hvm]
    exact hrun _
  refine ⟨hself, ?_, ?_, ?_, ?_, ?_⟩
  · rw [hself]
    cases hload : env.GetX509Certificate certFile with
    | error ex =>
      rw [VerifyCNBlock_of_load_error env cn certFile ex hload]
      rfl
    | ok cert =>
      obtain ⟨severity, message, htr⟩ := VerifyCNBlock_trace env cn certFile cert hload
      rw [htr]
      rfl
  · rw [hself]
    cases hload : env.GetX509Certificate certFile with
    | error ex =>
      rw [VerifyCNBlock_of_load_error env cn certFile ex hload]
      intro e he
      simp at he
      subst he
      rfl
    | ok cert =>
      obtain ⟨severity, message, htr⟩ := VerifyCNBlock_trace env cn certFile cert hload
      rw [htr]
      intro e he
      simp at he
      rcases he with he | he | he | he | he | he <;> subst he <;> rfl
  · intro other
    rw [hself]
    exact hrun other
  · intro cert hload
    rw [hself]
    obtain ⟨severity, message, htr⟩ := VerifyCNBlock_trace env cn certFile cert hload
    rw [htr]
    rfl
  · intro ex hload
    rw [hself, VerifyCNBlock_of_load_error env cn certFile ex hload]
    rfl

/-- Witness for C3 as amended: the leaf with a CA path that cannot be loaded. -/
theorem Run_all_three_is_cn_match_witness :
    Run demoCollaborators ⟨some "host.example", some "leaf.pem", some "missing.pem"⟩ []
      = VerifyCNBlock demoCollaborators "host.example" "leaf.pem" ∧
    loadedPaths (Run demoCollaborators
      ⟨some "host.example", some "leaf.pem", some "missing.pem"⟩ []).trace = ["leaf.pem"] :=
  ⟨(Run_all_three_is_cn_match demoCollaborators
      ⟨some "host.example", some "leaf.pem", some "missing.pem"⟩ []
      "host.example" "leaf.pem" "missing.pem" rfl (by decide) rfl (by decide) rfl).1,
   (Run_all_three_is_cn_match demoCollaborators
      ⟨some "host.example", some "leaf.pem", some "missing.pem"⟩ []
      "host.example" "leaf.pem" "missing.pem" rfl (by decide) rfl (by decide) rfl).2.1⟩

/-- The standalone CA block when the certificate loads. -/
theorem StandaloneCABlock_result (env : Collaborators X509) (caCertFile : String)
    (cacert : X509) (hload : env.GetX509Certificate caCertFile = .ok cacert) :
    (StandaloneCABlock env caCertFile).result =
      .ok (if env.IsCa cacert = true then ServiceOK else ServiceCritical) := by
  unfold StandaloneCABlock
  rw [hload]
  simp only []
  split_ifs <;> rfl

/-- C4. Without a certificate path and with a non-empty CA path whose
certificate loads, `Run` returns `ServiceOK` exactly when `IsCa` says the
certificate is a CA certificate, and `ServiceCritical` exactly when it says it
is not; the CN option may hold anything. -/
theorem Run_ca_identity_iff (env : Collaborators X509) (vm : variables_map)
    (ap : List String) (caCertFile : String) (cacert : X509)
    (hcert : optionValue vm.cert = "")
    (hca : vm.cacert = some caCertFile) (hcaSet : caCertFile ≠ "")
    (hload : env.GetX509Certificate caCertFile = .ok cacert) :
    ((Run env vm ap).result = .ok ServiceOK ↔ env.IsCa cacert = true) ∧
    ((Run env vm ap).result = .ok ServiceCritical ↔ env.IsCa cacert = false) := by
  have hrun : Run env vm ap = StandaloneCABlock env caCertFile := by
    have h := Run_of_cacert env vm ap hcert (by simpa [hca] using hcaSet)
    simpa [hca] using h
  rw [hrun, StandaloneCABlock_result env caCertFile cacert hload]
  cases h : env.IsCa cacert <;> simp [ServiceCritical, ServiceOK]

/-- Witness for C4: the leaf offered as CA, together with an expected CN. -/
theorem Run_ca_identity_iff_witness :
    demoCollaborators.IsCa 1 = false ∧
    (Run demoCollaborators ⟨some "host.example", none, some "leaf.pem"⟩ []).result
      = .ok ServiceCritical :=
  ⟨rfl,
    (Run_ca_identity_iff demoCollaborators ⟨some "host.example", none, some "leaf.pem"⟩ []
      "leaf.pem" 1 rfl rfl (by decide) rfl).2.mpr rfl⟩

/-- C5. With a non-empty certificate path alone, and a certificate that loads,
`Run` returns `ServiceOK`; its steps are the load, one log line and one
report, so that exactly one report is emitted and the CN is not read or
compared, `IsCa` is not called and `VerifyCertificate` is not called. -/
theorem Run_inspect_only (env : Collaborators X509) (vm : variables_map)
    (ap : List String) (certFile : String) (cert : X509)
    (hcn : optionValue vm.cn = "")
    (hcert : vm.cert = some certFile) (hcertSet : certFile ≠ "")
    (hca : optionValue vm.cacert = "")
    (hload : env.GetX509Certificate certFile = .ok cert) :
    (Run env vm ap).result = .ok ServiceOK ∧
    (Run env vm ap).trace =
      [ .GetX509Certificate certFile,
        .Log .LogInformation "cli" ("Printing certificate '" ++ certFile ++ "'"),
        .cout (env.GetCertificateInformation cert ++ "\n") ] ∧
    (reports (Run env vm ap).trace).length = 1 ∧
    (∀ e ∈ (Run env vm ap).trace,
      e.isCNCheck = false ∧ e.isCACheck = false ∧ e.isChainVerification = false) := by
  have hrun : Run env vm ap = PrintCertificateBlock env certFile := by
    have h := Run_of_cert env vm ap hcn (by simpa [hcert] using hcertSet) hca
    simpa [hcert] using h
  have hblock : PrintCertificateBlock env certFile =
      ⟨[ .GetX509Certificate certFile,
         .Log .LogInformation "cli" ("Printing certificate '" ++ certFile ++ "'"),
         .cout (env.GetCertificateInformation cert ++ "\n") ], .ok ServiceOK⟩ := by
    unfold PrintCertificateBlock
    rw [hload]
  rw [hrun, hblock]
  refine ⟨rfl, rfl, rfl, ?_⟩
  intro e he
  simp at he
  rcases he with he | he | he <;> subst he <;> exact ⟨rfl, rfl, rfl⟩

/-- Witness for C5: printing the leaf. -/
theorem Run_inspect_only_witness :
    demoCollaborators.GetX509Certificate "leaf.pem" = .ok 1 ∧
    (Run demoCollaborators ⟨none, some "leaf.pem", none⟩ []).result = .ok ServiceOK ∧
    (reports (Run demoCollaborators ⟨none, some "leaf.pem", none⟩ []).trace).length = 1 :=
  ⟨rfl,
    (Run_inspect_only demoCollaborators ⟨none, some "leaf.pem", none⟩ [] "leaf.pem" 1
      rfl rfl (by decide) rfl rfl).1,
    (Run_inspect_only demoCollaborators ⟨none, some "leaf.pem", none⟩ [] "leaf.pem" 1
      rfl rfl (by decide) rfl rfl).2.2.1⟩

/-- C6. When neither a certificate path nor a CA path is set, whatever the CN
option holds, `Run` returns `ServiceOK` and takes no step at all: it loads no
certificate, emits no report and writes no log line. -/
theorem Run_no_op (env : Collaborators X509) (vm : variables_map) (ap : List String)
    (hcert : optionValue vm.cert = "") (hca : optionValue vm.cacert = "") :
    (Run env vm ap).result = .ok ServiceOK ∧
    (Run env vm ap).trace = [] ∧
    loadedPaths (Run env vm ap).trace = [] ∧
    reports (Run env vm ap).trace = [] ∧
    logLines (Run env vm ap).trace = [] := by
  rw [Run_of_nothing env vm ap hcert hca]
  exact ⟨rfl, rfl, rfl, rfl, rfl⟩

/-- Witness for C6: only an expected CN is given. -/
theorem Run_no_op_witness :
    (Run demoCollaborators ⟨some "host.example", none, none⟩ []).result = .ok ServiceOK ∧
    (Run demoCollaborators ⟨some "host.example", none, none⟩ []).trace = [] :=
  ⟨(Run_no_op demoCollaborators ⟨some "host.example", none, none⟩ [] rfl rfl).1,
   (Run_no_op demoCollaborators ⟨some "host.example", none, none⟩ [] rfl rfl).2.1⟩

/-- C7, counterexample. `--cn ""` with `--cert leaf.pem` supplies the same two
options as `--cn host.example` with `--cert leaf.pem`, yet the first selects
the print mode and the second the CN mode; the first behaves step for step
like the request without `--cn`, returns `ServiceOK` although the empty string
is not the certificate's CN, and never compares a CN. -/
theorem Run_blank_cn_is_not_cn_match :
    selectedMode ⟨some "", some "leaf.pem", none⟩ = .InspectOnly ∧
    selectedMode ⟨some "host.example", some "leaf.pem", none⟩ = .CNMatch ∧
    selectedMode ⟨none, some "leaf.pem", none⟩ = .InspectOnly ∧
    Run demoCollaborators ⟨some "", some "leaf.pem", none⟩ []
      = Run demoCollaborators ⟨none, some "leaf.pem", none⟩ [] ∧
    (Run demoCollaborators ⟨some "", some "leaf.pem", none⟩ []).result = .ok ServiceOK ∧
    "" ≠ demoCollaborators.GetCertificateCN 1 ∧
    (VerifyCNBlock demoCollaborators "" "leaf.pem").result = .ok ServiceCritical ∧
    (∀ e ∈ (Run demoCollaborators ⟨some "", some "leaf.pem", none⟩ []).trace,
      e.isCNCheck = false) := by
  refine ⟨rfl, rfl, rfl, rfl, rfl, by decide, rfl, ?_⟩
  decide

/-- C7, amended. The mode `Run` executes is a function only of which of the
three strings read from the options are non-empty, a missing option reading as
the empty string; and two requests whose options read as the same three
strings, such as one with a blank option and one without that option, make
`Run` take the same steps and give the same result. -/
theorem selectedMode_of_emptiness (vm₁ vm₂ : variables_map)
    (hcn : IsEmpty (optionValue vm₁.cn) = IsEmpty (optionValue vm₂.cn))
    (hcert : IsEmpty (optionValue vm₁.cert) = IsEmpty (optionValue vm₂.cert))
    (hca : IsEmpty (optionValue vm₁.cacert) = IsEmpty (optionValue vm₂.cacert)) :
    selectedMode vm₁ = selectedMode vm₂ ∧
    (∀ (env : Collaborators X509) (ap : List String),
      Run env vm₁ ap = runMode env vm₁ (selectedMode vm₂)) ∧
    (optionValue vm₁.cn = optionValue vm₂.cn → optionValue vm₁.cert = optionValue vm₂.cert →
      optionValue vm₁.cacert = optionValue vm₂.cacert →
      ∀ (env : Collaborators X509) (ap₁ ap₂ : List String),
        Run env vm₁ ap₁ = Run env vm₂ ap₂) := by
  have hmode : selectedMode vm₁ = selectedMode vm₂ := by
    unfold selectedMode
    simp only [hcn, hcert, hca]
  refine ⟨hmode, ?_, ?_⟩
  · intro env ap
    rw [← hmode]
    exact Run_eq_runMode env vm₁ ap
  · intro h₁ h₂ h₃ env ap₁ ap₂
    unfold Run
    simp only [h₁, h₂, h₃]

/-- Witness for C7 as amended: a blank `--cn` against no `--cn`. -/
theorem selectedMode_of_emptiness_witness :
    selectedMode ⟨some "", some "leaf.pem", some "root.pem"⟩
      = selectedMode ⟨none, some "leaf.pem", some "root.pem"⟩ ∧
    Run demoCollaborators ⟨some "", some "leaf.pem", some "root.pem"⟩ []
      = Run demoCollaborators ⟨none, some "leaf.pem", some "root.pem"⟩ [] :=
  ⟨(@selectedMode_of_emptiness Nat ⟨some "", some "leaf.pem", some "root.pem"⟩
      ⟨none, some "leaf.pem", some "root.pem"⟩ rfl rfl rfl).1,
   (@selectedMode_of_emptiness Nat ⟨some "", some "leaf.pem", some "root.pem"⟩
      ⟨none, some "leaf.pem", some "root.pem"⟩ rfl rfl rfl).2.2 rfl rfl rfl
      demoCollaborators [] []⟩

/-- Every mode ends in `ServiceOK`, in `ServiceCritical`, or in the exception
of a certificate load that is the last step taken, after nothing but loads. -/
theorem runMode_cases (env : Collaborators X509) (vm : variables_map)
    (mode : VerificationMode) :
    (runMode env vm mode).result = .ok ServiceOK ∨
    (runMode env vm mode).result = .ok ServiceCritical ∨
    ∃ (ex : std_exception) (before : List (Event X509)) (path : String),
      (runMode env vm mode).result = .error ex ∧
      env.GetX509Certificate path = .error ex ∧
      (runMode env vm mode).trace = before ++ [.GetX509Certificate path] ∧
      ∀ e ∈ before, e.isLoad = true := by
  cases mode with
  | CNMatch =>
    simp only [runMode, VerifyCNBlock]
    cases hload : env.GetX509Certificate (optionValue vm.cert) with
    | error ex => exact Or.inr (Or.inr ⟨ex, [], _, rfl, hload, rfl, by simp⟩)
    | ok cert =>
      simp only []
      split_ifs
      · exact Or.inl rfl
      · exact Or.inr (Or.inl rfl)
  | ChainVerify =>
    simp only [runMode, VerifyCertificateBlock]
    cases hload : env.GetX509Certificate (optionValue vm.cert) with
    | error ex => exact Or.inr (Or.inr ⟨ex, [], _, rfl, hload, rfl, by simp⟩)
    | ok cert =>
      simp only []
      cases hloadCA : env.GetX509Certificate (optionValue vm.cacert) with
      | error ex =>
        exact Or.inr (Or.inr ⟨ex, [.GetX509Certificate (optionValue vm.cert)], _, rfl,
          hloadCA, rfl, by simp [Event.isLoad]⟩)
      | ok cacert =>
        simp only []
        cases env.VerifyCertificate cacert cert with
        | error ex => exact Or.inr (Or.inl rfl)
        | ok signedByCA =>
          cases signedByCA
          · exact Or.inr (Or.inl rfl)
          · exact Or.inl rfl
  | CAIdentity =>
    simp only [runMode, StandaloneCABlock]
    cases hload : env.GetX509Certificate (optionValue vm.cacert) with
    | error ex => exact Or.inr (Or.inr ⟨ex, [], _, rfl, hload, rfl, by simp⟩)
    | ok cacert =>
      simp only []
      split_ifs
      · exact Or.inl rfl
      · exact Or.inr (Or.inl rfl)
  | InspectOnly =>
    simp only [runMode, PrintCertificateBlock]
    cases hload : env.GetX509Certificate (optionValue vm.cert) with
    | error ex => exact Or.inr (Or.inr ⟨ex, [], _, rfl, hload, rfl, by simp⟩)
    | ok cert => exact Or.inl rfl
  | NoOp => exact Or.inl rfl

/-- C8. Whenever `Run` returns a status, the status is 0 (`ServiceOK`) or 2
(`ServiceCritical`); it is never 1 and never 3. -/
theorem Run_status_code (env : Collaborators X509) (vm : variables_map) (ap : List String)
    (code : Int) (hreturn : (Run env vm ap).result = .ok code) :
    (code = 0 ∨ code = 2) ∧ (code = ServiceOK ∨ code = ServiceCritical) ∧
    code ≠ 1 ∧ code ≠ 3 := by
  rw [Run_eq_runMode] at hreturn
  have hcode : code = 0 ∨ code = 2 := by
    rcases runMode_cases env vm (selectedMode vm) with h | h | ⟨ex, _, _, h, _⟩
    · rw [h] at hreturn
      injection hreturn with hreturn
      exact Or.inl hreturn.symm
    · rw [h] at hreturn
      injection hreturn with hreturn
      exact Or.inr hreturn.symm
    · rw [h] at hreturn
      cases hreturn
  refine ⟨hcode, hcode, ?_, ?_⟩
  · rcases hcode with h | h <;> rw [h] <;> decide
  · rcases hcode with h | h <;> rw [h] <;> decide

/-- Witness for C8: the stray certificate checked against the root. -/
theorem Run_status_code_witness :
    (Run demoCollaborators ⟨none, some "stray.pem", some "root.pem"⟩ []).result = .ok 2 ∧
    ((2 : Int) = 0 ∨ (2 : Int) = 2) :=
  ⟨rfl,
    (Run_status_code demoCollaborators ⟨none, some "stray.pem", some "root.pem"⟩ [] 2 rfl).1⟩

/-- `Run` lets an exception escape only when a certificate load threw it, and
then that load is the last step, preceded by loads only. -/
theorem Run_error_is_load_error (env : Collaborators X509) (vm : variables_map)
    (ap : List String) (ex : std_exception) (hthrow : (Run env vm ap).result = .error ex) :
    ∃ (before : List (Event X509)) (path : String),
      env.GetX509Certificate path = .error ex ∧
      (Run env vm ap).trace = before ++ [.GetX509Certificate path] ∧
      ∀ e ∈ before, e.isLoad = true := by
  rw [Run_eq_runMode] at hthrow ⊢
  rcases runMode_cases env vm (selectedMode vm) with h | h | ⟨ex', before, path, h, hl, ht, hb⟩
  · rw [h] at hthrow
    cases hthrow
  · rw [h] at hthrow
    cases hthrow
  · rw [h] at hthrow
    injection hthrow with hthrow
    subst hthrow
    exact ⟨before, path, hl, ht, hb⟩

/-- C9. When a certificate that the selected mode needs fails to load, `Run`
lets the loader's exception escape, and every step taken up to then is a call
of the loader: no log line, no report, no reading or comparing of a CN, no
`IsCa`, no `VerifyCertificate`.  The three cases of the hypothesis are: the
certificate of a non-empty `--cert` fails (CN mode, chain mode, print mode);
in chain mode the certificate loads and the CA certificate fails; in
standalone CA mode the CA certificate fails. -/
theorem Run_load_error_propagates (env : Collaborators X509) (vm : variables_map)
    (ap : List String) (ex : std_exception)
    (hfail :
      (optionValue vm.cert ≠ "" ∧ env.GetX509Certificate (optionValue vm.cert) = .error ex) ∨
      (optionValue vm.cn = "" ∧ optionValue vm.cert ≠ "" ∧ optionValue vm.cacert ≠ "" ∧
        (∃ cert, env.GetX509Certificate (optionValue vm.cert) = .ok cert) ∧
        env.GetX509Certificate (optionValue vm.cacert) = .error ex) ∨
      (optionValue vm.cert = "" ∧ optionValue vm.cacert ≠ "" ∧
        env.GetX509Certificate (optionValue vm.cacert) = .error ex)) :
    (Run env vm ap).result = .error ex ∧
    (∀ e ∈ (Run env vm ap).trace, e.isLoad = true ∧ e.isCNCheck = false ∧
      e.isCACheck = false ∧ e.isChainVerification = false) ∧
    reports (Run env vm ap).trace = [] ∧
    logLines (Run env vm ap).trace = [] := by
  have key : ∀ paths : List String,
      (Run env vm ap) = ⟨paths.map .GetX509Certificate, .error ex⟩ →
      (Run env vm ap).result = .error ex ∧
      (∀ e ∈ (Run env vm ap).trace, e.isLoad = true ∧ e.isCNCheck = false ∧
        e.isCACheck = false ∧ e.isChainVerification = false) ∧
      reports (Run env vm ap).trace = [] ∧
      logLines (Run env vm ap).trace = [] := by
    intro paths h
    rw [h]
    refine ⟨rfl, ?_, ?_, ?_⟩
    · intro e he
      simp only [List.mem_map] at he
      obtain ⟨path, _, rfl⟩ := he
      exact ⟨rfl, rfl, rfl, rfl⟩
    · simp [reports, List.filterMap_map]
    · simp [logLines, List.filterMap_map]
  rcases hfail with ⟨hcert, hload⟩ | ⟨hcn, hcert, hca, ⟨cert, hload⟩, hloadCA⟩ |
    ⟨hcert, hca, hloadCA⟩
  · apply key [optionValue vm.cert]
    by_cases hcn : optionValue vm.cn = ""
    · by_cases hca : optionValue vm.cacert = ""
      · rw [Run_of_cert env vm ap hcn hcert hca]
        unfold PrintCertificateBlock
        rw [hload]
        rfl
      · rw [Run_of_cert_cacert env vm ap hcn hcert hca]
        unfold VerifyCertificateBlock
        rw [hload]
        rfl
    · rw [Run_of_cn_cert env vm ap hcn hcert,
        VerifyCNBlock_of_load_error env _ _ ex hload]
      rfl
  · apply key [optionValue vm.cert, optionValue vm.cacert]
    rw [Run_of_cert_cacert env vm ap hcn hcert hca]
    unfold VerifyCertificateBlock
    rw [hload]
    simp only []
    rw [hloadCA]
    rfl
  · apply key [optionValue vm.cacert]
    rw [Run_of_cacert env vm ap hcert hca]
    unfold StandaloneCABlock
    rw [hloadCA]
    rfl

/-- Witness for C9: chain mode, the leaf loads and the CA file is missing. -/
theorem Run_load_error_propagates_witness :
    demoCollaborators.GetX509Certificate "leaf.pem" = .ok 1 ∧
    demoCollaborators.GetX509Certificate "missing.pem"
      = .error ⟨"Could not open certificate file"⟩ ∧
    (Run demoCollaborators ⟨none, some "leaf.pem", some "missing.pem"⟩ []).result
      = .error ⟨"Could not open certificate file"⟩ ∧
    reports (Run demoCollaborators ⟨none, some "leaf.pem", some "missing.pem"⟩ []).trace = [] :=
  ⟨rfl, rfl,
    (Run_load_error_propagates demoCollaborators ⟨none, some "leaf.pem", some "missing.pem"⟩ []
      ⟨"Could not open certificate file"⟩
      (Or.inr (Or.inl ⟨rfl, by decide, by decide, ⟨1, rfl⟩, rfl⟩))).1,
    (Run_load_error_propagates demoCollaborators ⟨none, some "leaf.pem", some "missing.pem"⟩ []
      ⟨"Could not open certificate file"⟩
      (Or.inr (Or.inl ⟨rfl, by decide, by decide, ⟨1, rfl⟩, rfl⟩))).2.2.1⟩

/-- The trace of the chain-verification block when both certificates load. -/
theorem VerifyCertificateBlock_trace (env : Collaborators X509) (certFile caCertFile : String)
    (cert cacert : X509)
    (hload : env.GetX509Certificate certFile = .ok cert)
    (hloadCA : env.GetX509Certificate caCertFile = .ok cacert) :
    (VerifyCertificateBlock env certFile caCertFile).trace =
      [ .GetX509Certificate certFile,
        .GetX509Certificate caCertFile,
        .Log .LogInformation "cli" ("Verifying certificate '" ++ certFile ++ "'"),
        .cout (env.GetCertificateInformation cert ++ "\n"),
        .Log .LogInformation "cli" (" with CA certificate '" ++ caCertFile ++ "'."),
        .cout (env.GetCertificateInformation cacert ++ "\n"),
        .GetCertificateCN cert,
        .VerifyCertificate cacert cert,
        match env.VerifyCertificate cacert cert with
        | .error ex =>
          .Log .LogCritical "cli"
            ("CRITICAL: Certificate with CN '" ++ env.GetCertificateCN cert
              ++ "' is NOT signed by CA: " ++ env.DiagnosticInformation ex)
        | .ok true =>
          .Log .LogInformation "cli"
            ("OK: Certificate with CN '" ++ env.GetCertificateCN cert ++ "' is signed by CA.")
        | .ok false =>
          .Log .LogCritical "cli"
            ("CRITICAL: Certificate with CN '" ++ env.GetCertificateCN cert
              ++ "' is NOT signed by CA.") ] := by
  unfold VerifyCertificateBlock
  rw [hload]
  simp only []
  rw [hloadCA]
  simp only []
  cases env.VerifyCertificate cacert cert with
  | error ex => rfl
  | ok signedByCA => cases signedByCA <;> rfl

/-- With certificate path and CA path and no CN, `Run` is the chain-verification
block on the two paths. -/
theorem Run_of_chain_request (env : Collaborators X509) (vm : variables_map)
    (ap : List String) (certFile caCertFile : String)
    (hcn : optionValue vm.cn = "")
    (hcert : vm.cert = some certFile) (hcertSet : certFile ≠ "")
    (hca : vm.cacert = some caCertFile) (hcaSet : caCertFile ≠ "") :
    Run env vm ap = VerifyCertificateBlock env certFile caCertFile := by
  have h := Run_of_cert_cacert env vm ap hcn (by simpa [hcert] using hcertSet)
    (by simpa [hca] using hcaSet)
  simpa [hcert, hca] using h

/-- C11. In chain mode with both certificates loaded, the steps of `Run` are:
the two loads; a log line; the report of the subject certificate; a log line;
the report of the authority certificate; the reading of the subject's CN; the
call `VerifyCertificate(cacert, cert)`; one last log line.  So both reports are
written, subject first, before the call, whatever the call answers, and the
call gets the authority first and the subject second. -/
theorem Run_chain_verify_order (env : Collaborators X509) (vm : variables_map)
    (ap : List String) (certFile caCertFile : String) (cert cacert : X509)
    (hcn : optionValue vm.cn = "")
    (hcert : vm.cert = some certFile) (hcertSet : certFile ≠ "")
    (hca : vm.cacert = some caCertFile) (hcaSet : caCertFile ≠ "")
    (hload : env.GetX509Certificate certFile = .ok cert)
    (hloadCA : env.GetX509Certificate caCertFile = .ok cacert) :
    ∃ (before : List (Event X509)) (severity : LogSeverity) (message : String),
      (Run env vm ap).trace
        = before ++ [.VerifyCertificate cacert cert, .Log severity "cli" message] ∧
      before =
        [ .GetX509Certificate certFile,
          .GetX509Certificate caCertFile,
          .Log .LogInformation "cli" ("Verifying certificate '" ++ certFile ++ "'"),
          .cout (env.GetCertificateInformation cert ++ "\n"),
          .Log .LogInformation "cli" (" with CA certificate '" ++ caCertFile ++ "'."),
          .cout (env.GetCertificateInformation cacert ++ "\n"),
          .GetCertificateCN cert ] ∧
      reports before =
        [ env.GetCertificateInformation cert ++ "\n",
          env.GetCertificateInformation cacert ++ "\n" ] ∧
      reports (Run env vm ap).trace = reports before ∧
      (∀ e ∈ before, e.isChainVerification = false) := by
  rw [Run_of_chain_request env vm ap certFile caCertFile hcn hcert hcertSet hca hcaSet,
    VerifyCertificateBlock_trace env certFile caCertFile cert cacert hload hloadCA]
  have hlast : ∃ (severity : LogSeverity) (message : String),
      ((match env.VerifyCertificate cacert cert with
        | .error ex =>
          .Log .LogCritical "cli"
            ("CRITICAL: Certificate with CN '" ++ env.GetCertificateCN cert
              ++ "' is NOT signed by CA: " ++ env.DiagnosticInformation ex)
        | .ok true =>
          .Log .LogInformation "cli"
            ("OK: Certificate with CN '" ++ env.GetCertificateCN cert ++ "' is signed by CA.")
        | .ok false =>
          .Log .LogCritical "cli"
            ("CRITICAL: Certificate with CN '" ++ env.GetCertificateCN cert
              ++ "' is NOT signed by CA.")) : Event X509) = .Log severity "cli" message := by
    cases env.VerifyCertificate cacert cert with
    | error ex => exact ⟨_, _, rfl⟩
    | ok signedByCA => cases signedByCA <;> exact ⟨_, _, rfl⟩
  obtain ⟨severity, message, hlast⟩ := hlast
  rw [hlast]
  refine ⟨_, severity, message, rfl, rfl, rfl, rfl, ?_⟩
  intro e he
  simp at he
  rcases he with he | he | he | he | he | he | he <;> subst he <;> rfl

/-- Witness for C11: the stray certificate against the root, a chain that does
not verify; both reports are there, subject first. -/
theorem Run_chain_verify_order_witness :
    (Run demoCollaborators ⟨none, some "stray.pem", some "root.pem"⟩ []).result
      = .ok ServiceCritical ∧
    reports (Run demoCollaborators ⟨none, some "stray.pem", some "root.pem"⟩ []).trace
      = [" Subject:     CN = stray.example\n", " Subject:     CN = Example Root CA\n"] ∧
    ∃ (before : List (Event Nat)) (severity : LogSeverity) (message : String),
      (Run demoCollaborators ⟨none, some "stray.pem", some "root.pem"⟩ []).trace
        = before ++ [.VerifyCertificate 2 3, .Log severity "cli" message] ∧
      reports before
        = [" Subject:     CN = stray.example\n", " Subject:     CN = Example Root CA\n"] := by
  refine ⟨rfl, by decide, ?_⟩
  obtain ⟨before, severity, message, h₁, _, h₃, _, _⟩ :=
    Run_chain_verify_order demoCollaborators ⟨none, some "stray.pem", some "root.pem"⟩ []
      "stray.pem" "root.pem" 3 2 rfl rfl (by decide) rfl (by decide) rfl rfl
  exact ⟨before, severity, message, h₁, h₃⟩

/-- The log lines of every mode: a mode that ends in `ServiceOK` writes
informational lines only; a mode that ends in `ServiceCritical` writes exactly
one critical line, and writes it last. -/
theorem runMode_log_cases (env : Collaborators X509) (vm : variables_map)
    (mode : VerificationMode) :
    (∃ ex, (runMode env vm mode).result = .error ex) ∨
    ((runMode env vm mode).result = .ok ServiceOK ∧
      criticalMessages (runMode env vm mode).trace = [] ∧
      ∀ line ∈ logLines (runMode env vm mode).trace, line.1 = .LogInformation) ∨
    ((runMode env vm mode).result = .ok ServiceCritical ∧
      ∃ message, criticalMessages (runMode env vm mode).trace = [message] ∧
        (logLines (runMode env vm mode).trace).getLast? = some (.LogCritical, message)) := by
  cases mode with
  | CNMatch =>
    simp only [runMode, VerifyCNBlock]
    cases env.GetX509Certificate (optionValue vm.cert) with
    | error ex => exact Or.inl ⟨ex, rfl⟩
    | ok cert =>
      simp only []
      split_ifs
      · exact Or.inr (Or.inl ⟨rfl, rfl, by simp [logLines]⟩)
      · exact Or.inr (Or.inr ⟨rfl, _, rfl, rfl⟩)
  | ChainVerify =>
    simp only [runMode, VerifyCertificateBlock]
    cases env.GetX509Certificate (optionValue vm.cert) with
    | error ex => exact Or.inl ⟨ex, rfl⟩
    | ok cert =>
      simp only []
      cases env.GetX509Certificate (optionValue vm.cacert) with
      | error ex => exact Or.inl ⟨ex, rfl⟩
      | ok cacert =>
        simp only []
        cases env.VerifyCertificate cacert cert with
        | error ex => exact Or.inr (Or.inr ⟨rfl, _, rfl, rfl⟩)
        | ok signedByCA =>
          cases signedByCA
          · exact Or.inr (Or.inr ⟨rfl, _, rfl, rfl⟩)
          · exact Or.inr (Or.inl ⟨rfl, rfl, by simp [logLines]⟩)
  | CAIdentity =>
    simp only [runMode, StandaloneCABlock]
    cases env.GetX509Certificate (optionValue vm.cacert) with
    | error ex => exact Or.inl ⟨ex, rfl⟩
    | ok cacert =>
      simp only []
      split_ifs
      · exact Or.inr (Or.inl ⟨rfl, rfl, by simp [logLines]⟩)
      · exact Or.inr (Or.inr ⟨rfl, _, rfl, rfl⟩)
  | InspectOnly =>
    simp only [runMode, PrintCertificateBlock]
    cases env.GetX509Certificate (optionValue vm.cert) with
    | error ex => exact Or.inl ⟨ex, rfl⟩
    | ok cert => exact Or.inr (Or.inl ⟨rfl, rfl, by simp [logLines]⟩)
  | NoOp => exact Or.inr (Or.inl ⟨rfl, rfl, by simp [logLines, runMode]⟩)

/-- C12. Whenever `Run` returns a status, the severities of its log lines agree
with it: the status is `ServiceCritical` exactly when a critical line was
written; then there is exactly one critical line and it is the last log line;
and when the status is `ServiceOK` every log line is informational. -/
theorem Run_log_severity (env : Collaborators X509) (vm : variables_map) (ap : List String)
    (code : Int) (hreturn : (Run env vm ap).result = .ok code) :
    (code = ServiceCritical ↔ criticalMessages (Run env vm ap).trace ≠ []) ∧
    (code = ServiceCritical ↔
      ∃ line ∈ logLines (Run env vm ap).trace, line.1 = .LogCritical) ∧
    (code = ServiceCritical →
      ∃ message, criticalMessages (Run env vm ap).trace = [message] ∧
        (logLines (Run env vm ap).trace).getLast? = some (.LogCritical, message)) ∧
    (code = ServiceOK →
      ∀ line ∈ logLines (Run env vm ap).trace, line.1 = .LogInformation) := by
  rw [Run_eq_runMode] at hreturn ⊢
  rcases runMode_log_cases env vm (selectedMode vm) with ⟨ex, h⟩ | ⟨h, hnone, hinfo⟩ |
    ⟨h, message, hone, hlast⟩
  · rw [h] at hreturn
    cases hreturn
  · rw [h] at hreturn
    injection hreturn with hreturn
    subst hreturn
    have hne : ServiceOK ≠ ServiceCritical := ServiceOK_ne_ServiceCritical
    refine ⟨?_, ?_, ?_, ?_⟩
    · simp [hnone, hne]
    · constructor
      · intro hc
        exact absurd hc hne
      · rintro ⟨line, hmem, hsev⟩
        have := hinfo line hmem
        rw [hsev] at this
        cases this
    · intro hc
      exact absurd hc hne
    · intro _
      exact hinfo
  · rw [h] at hreturn
    injection hreturn with hreturn
    subst hreturn
    have hne : ServiceCritical ≠ ServiceOK := fun h => ServiceOK_ne_ServiceCritical h.symm
    refine ⟨?_, ?_, ?_, ?_⟩
    · simp [hone]
    · constructor
      · intro _
        refine ⟨(.LogCritical, message), ?_, rfl⟩
        exact List.mem_of_mem_getLast? hlast
      · intro _
        rfl
    · intro _
      exact ⟨message, hone, hlast⟩
    · intro hc
      exact absurd hc hne

/-- Witness for C12: the leaf offered as a CA. -/
theorem Run_log_severity_witness :
    (Run demoCollaborators ⟨none, none, some "leaf.pem"⟩ []).result = .ok ServiceCritical ∧
    criticalMessages (Run demoCollaborators ⟨none, none, some "leaf.pem"⟩ []).trace ≠ [] :=
  ⟨rfl,
    (Run_log_severity demoCollaborators ⟨none, none, some "leaf.pem"⟩ [] ServiceCritical
      rfl).1.mp rfl⟩

theorem Mentions_self (part : String) : Mentions part part :=
  List.infix_refl _

theorem Mentions_append_left (a b part : String) (h : Mentions a part) :
    Mentions (a ++ b) part := by
  unfold Mentions at h ⊢
  rw [String.data_append]
  exact h.trans (List.prefix_append _ _).isInfix

theorem Mentions_append_right (a b part : String) (h : Mentions b part) :
    Mentions (a ++ b) part := by
  unfold Mentions at h ⊢
  rw [String.data_append]
  exact h.trans (List.suffix_append _ _).isInfix

/-- C13. In CN mode with a loaded certificate whose CN is not the expected CN,
`Run` writes one critical line, `CRITICAL: CN '<cn>' does NOT match certificate
CN '<certCN>'.`; this text contains the expected CN and contains the
certificate's CN. -/
theorem Run_cn_mismatch_diagnostic (env : Collaborators X509) (vm : variables_map)
    (ap : List String) (cn certFile : String) (cert : X509)
    (hcn : vm.cn = some cn) (hcnSet : cn ≠ "")
    (hcert : vm.cert = some certFile) (hcertSet : certFile ≠ "")
    (hload : env.GetX509Certificate certFile = .ok cert)
    (hdiff : cn ≠ env.GetCertificateCN cert) :
    (Run env vm ap).result = .ok ServiceCritical ∧
    ∃ message,
      criticalMessages (Run env vm ap).trace = [message] ∧
      message = "CRITICAL: CN '" ++ cn ++ "' does NOT match certificate CN '"
        ++ env.GetCertificateCN cert ++ "'." ∧
      Mentions message cn ∧
      Mentions message (env.GetCertificateCN cert) := by
  have hrun : Run env vm ap = VerifyCNBlock env cn certFile := by
    have h := Run_of_cn_cert env vm ap (by simpa [hcn] using hcnSet)
      (by simpa [hcert] using hcertSet)
    simpa [hcn, hcert] using h
  have hblock : VerifyCNBlock env cn certFile =
      ⟨[ .GetX509Certificate certFile,
         .Log .LogInformation "cli"
           ("Verifying common name (CN) '" ++ cn ++ " in certificate '" ++ certFile ++ "'."),
         .cout (env.GetCertificateInformation cert ++ "\n"),
         .GetCertificateCN cert,
         .CompareCN cn (env.GetCertificateCN cert),
         .Log .LogCritical "cli"
           ("CRITICAL: CN '" ++ cn ++ "' does NOT match certificate CN '"
             ++ env.GetCertificateCN cert ++ "'.") ],
        .ok ServiceCritical⟩ := by
    unfold VerifyCNBlock
    rw [hload]
    simp only []
    rw [if_neg hdiff]
    rfl
  rw [hrun, hblock]
  refine ⟨rfl, _, rfl, rfl, ?_, ?_⟩
  · apply Mentions_append_left
    apply Mentions_append_left
    apply Mentions_append_left
    apply Mentions_append_right
    exact Mentions_self cn
  · apply Mentions_append_left
    apply Mentions_append_right
    exact Mentions_self _

/-- Witness for C13: `other` expected, `host.example` in the certificate. -/
theorem Run_cn_mismatch_diagnostic_witness :
    criticalMessages (Run demoCollaborators ⟨some "other", some "leaf.pem", none⟩ []).trace
      = ["CRITICAL: CN 'other' does NOT match certificate CN 'host.example'."] ∧
    ∃ message,
      criticalMessages (Run demoCollaborators ⟨some "other", some "leaf.pem", none⟩ []).trace
        = [message] ∧
      Mentions message "other" ∧ Mentions message "host.example" := by
  refine ⟨by decide, ?_⟩
  obtain ⟨message, h₁, _, h₂, h₃⟩ :=
    (Run_cn_mismatch_diagnostic demoCollaborators ⟨some "other", some "leaf.pem", none⟩ []
      "other" "leaf.pem" 1 rfl (by decide) rfl (by decide) rfl (by decide)).2
  exact ⟨message, h₁, h₂, h₃⟩

/-- C14, counterexample. The stray certificate checked against the root ends
in `ServiceCritical` although `VerifyCertificate` threw nothing: it returned
false.  The critical line is `CRITICAL: Certificate with CN 'stray.example' is
NOT signed by CA.` and carries no error message. -/
theorem Run_chain_false_without_error_message :
    selectedMode ⟨none, some "stray.pem", some "root.pem"⟩ = .ChainVerify ∧
    (Run demoCollaborators ⟨none, some "stray.pem", some "root.pem"⟩ []).result
      = .ok ServiceCritical ∧
    demoCollaborators.VerifyCertificate 2 3 = .ok false ∧
    criticalMessages (Run demoCollaborators ⟨none, some "stray.pem", some "root.pem"⟩ []).trace
      = ["CRITICAL: Certificate with CN 'stray.example' is NOT signed by CA."] ∧
    ∀ ex : std_exception,
      ¬ Mentions "CRITICAL: Certificate with CN 'stray.example' is NOT signed by CA."
        (demoCollaborators.DiagnosticInformation ex) := by
  refine ⟨rfl, rfl, rfl, by decide, ?_⟩
  intro ex h
  have hprefix : Mentions ("Error: " ++ ex.what) "Error: " :=
    Mentions_append_left _ _ _ (Mentions_self _)
  have hbad : Mentions "CRITICAL: Certificate with CN 'stray.example' is NOT signed by CA."
      "Error: " := List.IsInfix.trans hprefix h
  revert hbad
  decide

/-- C14, amended. In chain mode with both certificates loaded: when
`VerifyCertificate` throws, `Run` returns `ServiceCritical` and its one
critical line carries `DiagnosticInformation` of the caught exception after
the subject's CN; when `VerifyCertificate` returns false, `Run` returns
`ServiceCritical` and its one critical line names the subject's CN and no
error; there is no other way to `ServiceCritical` in this mode. -/
theorem Run_chain_critical_diagnostic (env : Collaborators X509) (vm : variables_map)
    (ap : List String) (certFile caCertFile : String) (cert cacert : X509)
    (hcn : optionValue vm.cn = "")
    (hcert : vm.cert = some certFile) (hcertSet : certFile ≠ "")
    (hca : vm.cacert = some caCertFile) (hcaSet : caCertFile ≠ "")
    (hload : env.GetX509Certificate certFile = .ok cert)
    (hloadCA : env.GetX509Certificate caCertFile = .ok cacert) :
    (∀ ex, env.VerifyCertificate cacert cert = .error ex →
      (Run env vm ap).result = .ok ServiceCritical ∧
      criticalMessages (Run env vm ap).trace =
        ["CRITICAL: Certificate with CN '" ++ env.GetCertificateCN cert
          ++ "' is NOT signed by CA: " ++ env.DiagnosticInformation ex] ∧
      Mentions ("CRITICAL: Certificate with CN '" ++ env.GetCertificateCN cert
          ++ "' is NOT signed by CA: " ++ env.DiagnosticInformation ex)
        (env.DiagnosticInformation ex) ∧
      Mentions ("CRITICAL: Certificate with CN '" ++ env.GetCertificateCN cert
          ++ "' is NOT signed by CA: " ++ env.DiagnosticInformation ex)
        (env.GetCertificateCN cert)) ∧
    (env.VerifyCertificate cacert cert = .ok false →
      (Run env vm ap).result = .ok ServiceCritical ∧
      criticalMessages (Run env vm ap).trace =
        ["CRITICAL: Certificate with CN '" ++ env.GetCertificateCN cert
          ++ "' is NOT signed by CA."] ∧
      Mentions ("CRITICAL: Certificate with CN '" ++ env.GetCertificateCN cert
          ++ "' is NOT signed by CA.")
        (env.GetCertificateCN cert)) ∧
    ((Run env vm ap).result = .ok ServiceCritical →
      (∃ ex, env.VerifyCertificate cacert cert = .error ex) ∨
      env.VerifyCertificate cacert cert = .ok false) := by
  have hrun := Run_of_chain_request env vm ap certFile caCertFile hcn hcert hcertSet hca hcaSet
  have hres := VerifyCertificateBlock_result env certFile caCertFile cert cacert hload hloadCA
  have htrace := VerifyCertificateBlock_trace env certFile caCertFile cert cacert hload hloadCA
  rw [hrun, hres, htrace]
  refine ⟨?_, ?_, ?_⟩
  · intro ex hv
    rw [hv]
    refine ⟨rfl, rfl, ?_, ?_⟩
    · exact Mentions_append_right _ _ _ (Mentions_self _)
    · apply Mentions_append_left
      apply Mentions_append_left
      exact Mentions_append_right _ _ _ (Mentions_self _)
  · intro hv
    rw [hv]
    refine ⟨rfl, rfl, ?_⟩
    apply Mentions_append_left
    exact Mentions_append_right _ _ _ (Mentions_self _)
  · intro hcrit
    cases hv : env.VerifyCertificate cacert cert with
    | error ex => exact Or.inl ⟨ex, rfl⟩
    | ok signedByCA =>
      cases signedByCA
      · exact Or.inr rfl
      · rw [hv] at hcrit
        exact absurd hcrit (by simp [ServiceOK, ServiceCritical])

/-- Witness for C14 as amended: the leaf offered as authority of the root; the
chain verification throws and the critical line ends in its message. -/
theorem Run_chain_critical_diagnostic_witness :
    demoCollaborators.VerifyCertificate 1 2 = .error ⟨"unable to get issuer certificate"⟩ ∧
    criticalMessages (Run demoCollaborators ⟨none, some "root.pem", some "leaf.pem"⟩ []).trace
      = ["CRITICAL: Certificate with CN 'Example Root CA' is NOT signed by CA: "
          ++ "Error: unable to get issuer certificate"] :=
  ⟨rfl,
    ((Run_chain_critical_diagnostic demoCollaborators
      ⟨none, some "root.pem", some "leaf.pem"⟩ [] "root.pem" "leaf.pem" 2 1
      rfl rfl (by decide) rfl (by decide) rfl rfl).1
      ⟨"unable to get issuer certificate"⟩ rfl).2.1⟩

end RunTheorems

section EnableFlags

open IcingaApplication

/-- C10. Each of the five getters resolves its flag in the order: the override
when it is set; otherwise the configured value when it is set; otherwise
`true`.  Each getter reads the two fields of its own flag. -/
theorem GetEnable_resolution (app : IcingaApplication) :
    GetEnableNotifications app
      = resolveEnable app.m_OverrideEnableNotifications app.m_EnableNotifications ∧
    GetEnableEventHandlers app
      = resolveEnable app.m_OverrideEnableEventHandlers app.m_EnableEventHandlers ∧
    GetEnableFlapping app
      = resolveEnable app.m_OverrideEnableFlapping app.m_EnableFlapping ∧
    GetEnableChecks app
      = resolveEnable app.m_OverrideEnableChecks app.m_EnableChecks ∧
    GetEnablePerfdata app
      = resolveEnable app.m_OverrideEnablePerfdata app.m_EnablePerfdata := by
  obtain ⟨c₁, c₂, c₃, c₄, c₅, o₁, o₂, o₃, o₄, o₅⟩ := app
  refine ⟨?_, ?_, ?_, ?_, ?_⟩
  · cases o₁ <;> cases c₁ <;> rfl
  · cases o₂ <;> cases c₂ <;> rfl
  · cases o₃ <;> cases c₃ <;> rfl
  · cases o₄ <;> cases c₄ <;> rfl
  · cases o₅ <;> cases c₅ <;> rfl

theorem ClearEnable_SetEnable (app : IcingaApplication) (flag : Flag) (enabled : Bool) :
    ClearEnable (SetEnable app flag enabled) flag = ClearEnable app flag := by
  cases flag <;> rfl

theorem ClearEnable_foldl_SetEnable (flag : Flag) (values : List Bool) :
    ∀ app : IcingaApplication,
      ClearEnable (values.foldl (fun a enabled => SetEnable a flag enabled) app) flag
        = ClearEnable app flag := by
  induction values with
  | nil => intro app; rfl
  | cons enabled rest ih =>
    intro app
    rw [List.foldl_cons, ih, ClearEnable_SetEnable]

theorem GetEnable_ClearEnable (app : IcingaApplication) (flag : Flag) :
    GetEnable (ClearEnable app flag) flag = resolveEnable .Empty (configured app flag) := by
  obtain ⟨c₁, c₂, c₃, c₄, c₅, o₁, o₂, o₃, o₄, o₅⟩ := app
  cases flag
  · cases c₁ <;> rfl
  · cases c₂ <;> rfl
  · cases c₃ <;> rfl
  · cases c₄ <;> rfl
  · cases c₅ <;> rfl

/-- C15. For each of the five flags, every state and every boolean: right
after `SetEnableX(b)` the getter returns `b`, whatever is configured; after a
following `ClearEnableX` the getter returns the configured value if it is set
and `true` otherwise, which is what it returns on a state without override;
and this is so after any number of `SetEnableX` calls before the
`ClearEnableX`, which leaves the same state as `ClearEnableX` alone. -/
theorem GetEnable_after_Set_and_Clear (flag : Flag) (app : IcingaApplication) (b : Bool)
    (values : List Bool) :
    GetEnable (SetEnable app flag b) flag = b ∧
    GetEnable (ClearEnable (SetEnable app flag b) flag) flag
      = (match configured app flag with
        | .Boolean c => c
        | .Empty => true) ∧
    GetEnable (ClearEnable (SetEnable app flag b) flag) flag
      = GetEnable (ClearEnable app flag) flag ∧
    override (ClearEnable (SetEnable app flag b) flag) flag = .Empty ∧
    ClearEnable (values.foldl (fun a enabled => SetEnable a flag enabled) app) flag
      = ClearEnable app flag ∧
    GetEnable (ClearEnable (values.foldl (fun a enabled => SetEnable a flag enabled) app) flag)
        flag
      = (match configured app flag with
        | .Boolean c => c
        | .Empty => true) := by
  have hres : ∀ c : Value, resolveEnable .Empty c
      = (match c with
        | .Boolean c => c
        | .Empty => true) := by
    intro c
    cases c <;> rfl
  refine ⟨?_, ?_, ?_, ?_, ?_, ?_⟩
  · cases flag <;> rfl
  · rw [ClearEnable_SetEnable, GetEnable_ClearEnable, hres]
  · rw [ClearEnable_SetEnable]
  · cases flag <;> rfl
  · exact ClearEnable_foldl_SetEnable flag values app
  · rw [ClearEnable_foldl_SetEnable, GetEnable_ClearEnable, hres]

/-- C16. `SetEnableX` and `ClearEnableX` of a flag leave all five configured
values as they are and, for every other flag, leave its override and the
result of its getter as they are. -/
theorem SetEnable_ClearEnable_frame (flag other : Flag) (hother : other ≠ flag)
    (app : IcingaApplication) (b : Bool) :
    (∀ any : Flag, configured (SetEnable app flag b) any = configured app any) ∧
    override (SetEnable app flag b) other = override app other ∧
    GetEnable (SetEnable app flag b) other = GetEnable app other ∧
    (∀ any : Flag, configured (ClearEnable app flag) any = configured app any) ∧
    override (ClearEnable app flag) other = override app other ∧
    GetEnable (ClearEnable app flag) other = GetEnable app other := by
  refine ⟨?_, ?_, ?_, ?_, ?_, ?_⟩
  · intro any
    cases flag <;> cases any <;> rfl
  · cases flag <;> cases other <;> first | rfl | exact absurd rfl hother
  · cases flag <;> cases other <;> first | rfl | exact absurd rfl hother
  · intro any
    cases flag <;> cases any <;> rfl
  · cases flag <;> cases other <;> first | rfl | exact absurd rfl hother
  · cases flag <;> cases other <;> first | rfl | exact absurd rfl hother

/-- Witness for C16: disabling notifications does not touch the checks. -/
theorem SetEnable_ClearEnable_frame_witness :
    Flag.Checks ≠ Flag.Notifications ∧
    GetEnable (SetEnable demoApplication .Notifications false) .Checks
      = GetEnable demoApplication .Checks ∧
    override (ClearEnable demoApplication .Notifications) .Checks
      = override demoApplication .Checks :=
  ⟨by decide,
    (SetEnable_ClearEnable_frame .Notifications .Checks (by decide) demoApplication false).2.2.1,
    (SetEnable_ClearEnable_frame .Notifications .Checks (by decide) demoApplication
      false).2.2.2.2.1⟩

@[simp] theorem Dictionary.Get_Set (bag : Dictionary) (key key' : String) (value : Value) :
    (bag.Set key value).Get key' = if key' = key then value else bag.Get key' := by
  unfold Dictionary.Get Dictionary.Set
  by_cases h : key' = key <;> simp [h]

/-- C17. Serializing a state into any bag and deserializing the bag with the
same mask into any object: when the config bit is in the mask the five
configured values of the result are the source's, otherwise they are the
target's; when the state bit is in the mask the five overrides of the result
are the source's, otherwise they are the target's. -/
theorem InternalDeserialize_InternalSerialize (base : DynamicObject)
    (source target : IcingaApplication) (bag : Dictionary) (attributeTypes : Int) :
    (Int.land attributeTypes base.Attribute_Config ≠ 0 →
      ∀ flag, configured
          (InternalDeserialize target base (InternalSerialize source base bag attributeTypes)
            attributeTypes) flag
        = configured source flag) ∧
    (Int.land attributeTypes base.Attribute_State ≠ 0 →
      ∀ flag, override
          (InternalDeserialize target base (InternalSerialize source base bag attributeTypes)
            attributeTypes) flag
        = override source flag) ∧
    (Int.land attributeTypes base.Attribute_Config = 0 →
      ∀ flag, configured
          (InternalDeserialize target base (InternalSerialize source base bag attributeTypes)
            attributeTypes) flag
        = configured target flag) ∧
    (Int.land attributeTypes base.Attribute_State = 0 →
      ∀ flag, override
          (InternalDeserialize target base (InternalSerialize source base bag attributeTypes)
            attributeTypes) flag
        = override target flag) := by
  refine ⟨?_, ?_, ?_, ?_⟩
  · intro hc flag
    by_cases hs : Int.land attributeTypes base.Attribute_State = 0 <;>
      cases flag <;>
      simp [InternalDeserialize, InternalSerialize, configured, hc, hs]
  · intro hs flag
    by_cases hc : Int.land attributeTypes base.Attribute_Config = 0 <;>
      cases flag <;>
      simp [InternalDeserialize, InternalSerialize, override, hc, hs]
  · intro hc flag
    by_cases hs : Int.land attributeTypes base.Attribute_State = 0 <;>
      cases flag <;>
      simp [InternalDeserialize, InternalSerialize, configured, hc, hs]
  · intro hs flag
    by_cases hc : Int.land attributeTypes base.Attribute_Config = 0 <;>
      cases flag <;>
      simp [InternalDeserialize, InternalSerialize, override, hc, hs]

/-- Witness for C17: with the config bit alone in the mask, the configured
values travel and the overrides of the target stay. -/
theorem InternalDeserialize_InternalSerialize_witness :
    configured (InternalDeserialize IcingaApplication.new demoDynamicObject
      (InternalSerialize demoApplication demoDynamicObject emptyDictionary 2) 2) .Notifications
      = .Boolean false ∧
    override (InternalDeserialize IcingaApplication.new demoDynamicObject
      (InternalSerialize demoApplication demoDynamicObject emptyDictionary 2) 2) .Checks
      = .Empty :=
  ⟨(InternalDeserialize_InternalSerialize demoDynamicObject demoApplication
      IcingaApplication.new emptyDictionary 2).1 (by decide) .Notifications,
   (InternalDeserialize_InternalSerialize demoDynamicObject demoApplication
      IcingaApplication.new emptyDictionary 2).2.2.2 (by decide) .Checks⟩

/-- C18. For each of the five built-in names `ResolveMacro` returns true, and
what it returns and stores does not depend on the user macros, so a user macro
of the same name is shadowed.  For any other name it returns true exactly when
the macro dictionary exists and contains the name, and then stores the
dictionary's value; otherwise it returns false and leaves the string as it
was. -/
theorem ResolveMacro_resolution {Time : Type} (env : MacroCollaborators Time)
    (macroName : String) (cr : Option Dictionary) (result : String) :
    (macroName ∈ builtinMacroNames →
      (ResolveMacro env macroName cr result).1 = true ∧
      ∀ macros : Option Dictionary,
        ResolveMacro { env with GetMacros := macros } macroName cr result
          = ResolveMacro env macroName cr result) ∧
    (macroName ∉ builtinMacroNames →
      ((ResolveMacro env macroName cr result).1 = true ↔
        ∃ macros, env.GetMacros = some macros ∧ macros.Contains macroName = true) ∧
      (∀ macros, env.GetMacros = some macros → macros.Contains macroName = true →
        ResolveMacro env macroName cr result
          = (true, env.ValueToString (macros.Get macroName))) ∧
      ((ResolveMacro env macroName cr result).1 = false →
        ResolveMacro env macroName cr result = (false, result))) := by
  constructor
  · intro hbuiltin
    simp only [builtinMacroNames, List.mem_cons, List.mem_singleton, List.not_mem_nil,
      or_false] at hbuiltin
    rcases hbuiltin with h | h | h | h | h <;> subst h <;>
      exact ⟨by simp [ResolveMacro], fun _ => by simp [ResolveMacro]⟩
  · intro hother
    simp only [builtinMacroNames, List.mem_cons, List.mem_singleton, List.not_mem_nil,
      or_false, not_or] at hother
    obtain ⟨h₁, h₂, h₃, h₄, h₅⟩ := hother
    unfold ResolveMacro
    simp only [h₁, h₂, h₃, h₄, h₅, if_false]
    cases hm : env.GetMacros with
    | none => simp
    | some macros =>
      cases hc : macros.Contains macroName <;> simp [hc]

/-- Witness for C18: `TIMET` is answered from the clock although the user
macros define `TIMET`; `maintenance` is answered from the user macros;
`colour` is not answered and the string stays. -/
theorem ResolveMacro_resolution_witness :
    ResolveMacro demoMacroCollaborators "TIMET" none "before" = (true, "1700000000") ∧
    ResolveMacro demoMacroCollaborators "maintenance" none "before" = (true, "1") ∧
    ResolveMacro demoMacroCollaborators "colour" none "before" = (false, "before") := by
  refine ⟨?_, ?_, ?_⟩
  · have h := ((ResolveMacro_resolution demoMacroCollaborators "TIMET" none "before").1
      (by decide)).1
    exact Prod.ext h (by decide)
  · exact ((ResolveMacro_resolution demoMacroCollaborators "maintenance" none "before").2
      (by decide)).2.1 _ rfl (by decide)
  · exact ((ResolveMacro_resolution demoMacroCollaborators "colour" none "before").2
      (by decide)).2.2 (by decide)

end EnableFlags

end icinga
